import Mathlib

/-!
# Verification of the test-matrix orchestrator (`ci/test-cases/run_tests.py`)

A shallow embedding of the orchestrator script into Lean 4.

* YAML values, as produced by `yaml.safe_load`, are modelled by `PyVal`
  (null, strings, lists, and string-keyed mappings as association lists
  in insertion order; genuine Python dicts have pairwise-distinct keys).
* `run_fluster_cmd` builds the argv list of one external conformance-tool
  invocation, exactly as the script's `run_fluster` does — including the
  adjacent-string-literal concatenation `'-t' '300'` of the source, which
  yields the single fused token `"-t300"`.
* The top-level configuration walk (the `for arch, arch_info in
  config.items(): ...` loop) is modelled by `walkLoop`; a walk result is
  the ordered list of invocations performed, each paired with the external
  tool's exit status, together with an optional uncaught Python exception
  (`KeyError`, `TypeError`, `AttributeError`) that aborts the walk.
  External exit statuses come from an oracle `exits : List String → Int`
  giving the status of each argv vector; `subprocess.run` is called with
  `check` unset (`check=False`), so a non-zero status never raises.
* `retrieve_ccdec` models the best-effort artifact fetcher over an abstract
  file-system/environment state `SysState`, with a `FetchEnv` oracle
  choosing which of its system calls raise.
* `mainRun` models the whole script after argument parsing: the
  `yaml.safe_load` outcome is an `Except` value (`Except.error diag` for a
  `yaml.YAMLError` with diagnostic `diag`); the script catches exactly
  `yaml.YAMLError`, prints it and falls off the end (exit status 0), while
  any other exception escapes as an unhandled fault (non-zero exit with a
  traceback).
-/

/-- A YAML value as returned by `yaml.safe_load`: null, string, sequence,
or string-keyed mapping (association list in insertion order). Scalar
kinds not exercised by this script (numbers, booleans) are omitted. -/
inductive PyVal where
  | pynull : PyVal
  | pystr : String → PyVal
  | pylist : List PyVal → PyVal
  | pydict : List (String × PyVal) → PyVal

/-- `d[k]` lookup on a mapping, first matching key (a genuine Python dict
has distinct keys, so this is its lookup). `Option.none` means `KeyError`. -/
def dictFind (d : List (String × PyVal)) (k : String) : Option PyVal :=
  match d with
  | [] => Option.none
  | (k', v) :: rest => if k' = k then some v else dictFind rest k

/-- A skip-vector set as it reaches `run_fluster`: `Option.none` models a
YAML-null `skip-vectors:` value (Python `None`), `some l` a list of vector
identifiers. -/
abbrev Skips := Option (List String)

/-- Python truthiness of the `skips` argument (`if skips:`): `None` and the
empty list are falsy, a non-empty list is truthy. -/
def skipsTruthy : Skips → Bool
  | Option.none => false
  | some l => !l.isEmpty

/-- The skip-vector argv extension built by the loop
`for index, skip in enumerate(skips): cmd.extend(['-sv', skip] if not index else [skip])`:
the entry at index 0 is paired with the `-sv` flag, later entries are bare values. -/
def skipExtend (skips : List String) : List String :=
  (skips.enum.map (fun p => if p.1 = 0 then ["-sv", p.2] else [p.2])).flatten

/-- The fixed leading argv of every conformance-tool invocation. The final
element mirrors the source's `'-t' '300'`: two adjacent string literals,
which Python concatenates into the single token `-t300`. -/
def baseCmd (codec test_suite : String) : List String :=
  ["python3", "/usr/bin/fluster_parser.py", "-ts", test_suite,
   "-d", "ccdec-" ++ codec, "-t" ++ "300"]

/-- The argv list built by `run_fluster(codec, test_suite, skips, single_thread)`
before it is handed to `subprocess.run`. -/
def run_fluster_cmd (codec test_suite : String) (skips : Skips)
    (single_thread : Bool) : List String :=
  let cmd := baseCmd codec test_suite
  let cmd := if single_thread then cmd ++ ["-j", "1"] else cmd
  -- `if skips:` — when truthy, `skips` is a non-empty list and is iterated
  if skipsTruthy skips then cmd ++ skipExtend (skips.getD []) else cmd

/-- `subprocess.run(cmd, check=check)` against an exit-status oracle: with
`check` set, a non-zero status raises `CalledProcessError`; with `check`
unset it returns the status unconditionally. -/
def subprocessRun (check : Bool) (exits : List String → Int)
    (cmd : List String) : Except String Int :=
  let returncode := exits cmd
  if check ∧ returncode ≠ 0 then Except.error "CalledProcessError"
  else Except.ok returncode

/-- `run_fluster` itself: builds the argv and runs it with `check=False`. -/
def run_fluster (exits : List String → Int) (codec test_suite : String)
    (skips : Skips) (single_thread : Bool) : Except String Int :=
  subprocessRun false exits (run_fluster_cmd codec test_suite skips single_thread)

-- Sanity lemmas for `skipExtend`.

lemma skipExtend_enumFrom (n : Nat) (xs : List String) :
    ((List.enumFrom (n + 1) xs).map
      (fun p => if p.1 = 0 then ["-sv", p.2] else [p.2])).flatten = xs := by
  induction xs generalizing n with
  | nil => rfl
  | cons x rest ih => simp [List.enumFrom, ih]

lemma skipExtend_cons (s : String) (rest : List String) :
    skipExtend (s :: rest) = "-sv" :: s :: rest := by
  simp [skipExtend, List.enum, List.enumFrom, skipExtend_enumFrom 0]

/-! ## The matrix walk (the script's top-level loop) -/

/-- One external invocation as the walk performs it:
`run_fluster(codec, test_suite, skips, args.single)`. -/
structure ExecUnit where
  codec : String
  suite : String
  skips : Skips
  deriving DecidableEq

/-- Result of (part of) the walk: the invocations performed in order, each
with the external tool's exit status, plus an optional uncaught Python
exception that aborted the walk at that point. -/
abbrev WalkRes := List (ExecUnit × Int) × Option String

/-- Sequencing of two walk fragments: once an exception has been raised the
remaining iterations of the enclosing loop do not execute. -/
def wseq (r₁ r₂ : WalkRes) : WalkRes :=
  match r₁ with
  | (us, Option.none) => (us ++ r₂.1, r₂.2)
  | (us, some e) => (us, some e)

/-- Reads the elements of a `skip-vectors` YAML list. Vector identifiers in
the schema are strings; a non-string element is modelled as an immediate
`TypeError` (in Python it surfaces as a `TypeError` when `subprocess.run`
is handed the non-string argv element of that same unit). -/
def readSkipList : List PyVal → Except String (List String)
  | [] => Except.ok []
  | PyVal.pystr s :: rest =>
    match readSkipList rest with
    | Except.ok l => Except.ok (s :: l)
    | Except.error e => Except.error e
  | _ :: _ => Except.error "TypeError: skip vector is not a string"

/-- Interprets a `skip-vectors` value: YAML null (Python `None`) or a list
of vector identifiers, the only shapes of the schema. -/
def readSkips : PyVal → Except String Skips
  | PyVal.pynull => Except.ok Option.none
  | PyVal.pylist l =>
    match readSkipList l with
    | Except.ok ss => Except.ok (some ss)
    | Except.error e => Except.error e
  | _ => Except.error "TypeError: skip-vectors is not a list"

/-- `ts[test_suite]["skip-vectors"]` for one test-suite entry value:
indexing a non-mapping raises `TypeError`, a missing key raises `KeyError`. -/
def suiteSkips (sval : PyVal) : Except String Skips :=
  match sval with
  | PyVal.pydict d =>
    match dictFind d "skip-vectors" with
    | some sv => readSkips sv
    | Option.none => Except.error "KeyError: skip-vectors"
  | _ => Except.error "TypeError: suite entry is not subscriptable by string"

/-- The inner loop `for test_suite in ts:` over one test-suite mapping `ts`
(iterating a dict yields its keys; each key's value is the paired one):
extract the skip list and call `run_fluster`. -/
def walkSuites (exits : List String → Int) (single : Bool) (codec : String) :
    List (String × PyVal) → WalkRes
  | [] => ([], Option.none)
  | (suite, sval) :: rest =>
    match suiteSkips sval with
    | Except.error e => ([], some e)
    | Except.ok sk =>
      match run_fluster exits codec suite sk single with
      | Except.error e => ([], some e)
      | Except.ok code =>
        let r := walkSuites exits single codec rest
        ((⟨codec, suite, sk⟩, code) :: r.1, r.2)

/-- `for ts in test_suites['test-suites']:` — each element must be a
mapping for the body `for test_suite in ts: ... ts[test_suite]` to run;
a non-mapping element raises a `TypeError` at its first use. -/
def walkTsList (exits : List String → Int) (single : Bool) (codec : String) :
    List PyVal → WalkRes
  | [] => ([], Option.none)
  | PyVal.pydict tsD :: rest =>
    wseq (walkSuites exits single codec tsD) (walkTsList exits single codec rest)
  | _ :: _ => ([], some "TypeError: test-suite entry is not a mapping")

/-- `test_suites['test-suites']` for one codec entry value, which must be a
mapping holding the key, whose value must be iterable as a list. -/
def codecSuites (tsuites : PyVal) : Except String (List PyVal) :=
  match tsuites with
  | PyVal.pydict d =>
    match dictFind d "test-suites" with
    | some (PyVal.pylist l) => Except.ok l
    | some _ => Except.error "TypeError: test-suites value is not a list"
    | Option.none => Except.error "KeyError: test-suites"
  | _ => Except.error "TypeError: codec value is not subscriptable by string"

/-- `for codec, test_suites in c.items():` over one codec mapping `c`. -/
def walkCodecItems (exits : List String → Int) (single : Bool) :
    List (String × PyVal) → WalkRes
  | [] => ([], Option.none)
  | (codec, tsuites) :: rest =>
    match codecSuites tsuites with
    | Except.error e => ([], some e)
    | Except.ok tsl =>
      wseq (walkTsList exits single codec tsl) (walkCodecItems exits single rest)

/-- `for c in arch_info['codecs']:` — each element must be a mapping for
`c.items()` to exist; otherwise an `AttributeError` is raised. -/
def walkCodecs (exits : List String → Int) (single : Bool) :
    List PyVal → WalkRes
  | [] => ([], Option.none)
  | PyVal.pydict cD :: rest =>
    wseq (walkCodecItems exits single cD) (walkCodecs exits single rest)
  | _ :: _ => ([], some "AttributeError: codec entry has no attribute items")

/-- Processing of the matched architecture entry: read `device_type`
(bound but unused by the script; a missing key still raises `KeyError`
before any codec is visited), then iterate `arch_info['codecs']`. -/
def walkArchInfo (exits : List String → Int) (single : Bool)
    (archInfo : PyVal) : WalkRes :=
  match archInfo with
  | PyVal.pydict d =>
    match dictFind d "device_type" with
    | Option.none => ([], some "KeyError: device_type")
    | some _ =>
      match dictFind d "codecs" with
      | some (PyVal.pylist cs) => walkCodecs exits single cs
      | some _ => ([], some "TypeError: codecs value is not a list")
      | Option.none => ([], some "KeyError: codecs")
  | _ => ([], some "TypeError: arch entry is not subscriptable by string")

/-- The top-level loop `for arch, arch_info in config.items():` with
`if arch != args.arch: continue` and the trailing `break`: entries with a
different key are skipped; the first matching entry is processed and the
loop then stops, so entries after it are never examined. -/
def walkLoop (exits : List String → Int) (single : Bool) (argsArch : String) :
    List (String × PyVal) → WalkRes
  | [] => ([], Option.none)
  | (arch, archInfo) :: rest =>
    if arch ≠ argsArch then walkLoop exits single argsArch rest
    else walkArchInfo exits single archInfo

/-! ## The whole script after argument parsing -/

/-- Observable outcome of one orchestrator run: the invocations performed,
the `yaml.YAMLError` diagnostic printed by the `except` clause (if any),
and the uncaught exception that escaped the script (if any). -/
structure RunOutcome where
  units : List (ExecUnit × Int)
  printedError : Option String
  fault : Option String
  deriving DecidableEq

/-- Process exit status: the script has no explicit `sys.exit`, so it exits
0 when control falls off the end, and the interpreter exits non-zero (1)
exactly when an exception escapes unhandled. -/
def exitCode (o : RunOutcome) : Nat :=
  match o.fault with
  | Option.none => 0
  | some _ => 1

/-- The `with open(...)`/`try: config = yaml.safe_load(stream); ...` block:
`parse` is the outcome of `yaml.safe_load` (`Except.error diag` for a
`yaml.YAMLError` carrying diagnostic `diag`). Only `yaml.YAMLError` is
caught (printed, then normal termination); `config.items()` on a non-dict
raises `AttributeError`, and any exception from the walk escapes. -/
def mainRun (exits : List String → Int) (single : Bool)
    (parse : Except String PyVal) (argsArch : String) : RunOutcome :=
  match parse with
  | Except.error diag => ⟨[], some diag, Option.none⟩
  | Except.ok (PyVal.pydict entries) =>
    let r := walkLoop exits single argsArch entries
    ⟨r.1, Option.none, r.2⟩
  | Except.ok _ => ⟨[], Option.none,
      some "AttributeError: config object has no attribute items"⟩

/-! ## The artifact fetcher (`retrieve_ccdec`) -/

/-- Abstract system state touched by `retrieve_ccdec`: existence of the
install directory `/opt/cros-codecs`, existence and permission bits of the
installed binary `/opt/cros-codecs/ccdec`, and the entries of the `PATH`
environment variable. -/
structure SysState where
  dirExists : Bool
  binExists : Bool
  binMode : Nat
  path : List String
  deriving DecidableEq

/-- Failure oracle for one `retrieve_ccdec` call: which of its system
calls raise an exception. `wgetDownloadOk` records whether the spawned
`wget` process itself succeeds; since `subprocess.run` is called with
`check` unset, a failing download raises nothing and only affects the
downloaded bytes, which this state does not track. -/
structure FetchEnv where
  mkdirRaises : Bool
  wgetRaises : Bool
  wgetDownloadOk : Bool
  chmodRaises : Bool
  deriving DecidableEq

/-- The body of `retrieve_ccdec`'s `try` block. An `Except.error` carries
the exception text together with the state at the moment of the raise
(later statements of the block do not execute). -/
def retrieve_ccdec_body (env : FetchEnv) (s : SysState) :
    Except (String × SysState) SysState :=
  -- if not os.path.exists("/opt/cros-codecs"): os.mkdir("/opt/cros-codecs")
  let step1 : Except (String × SysState) SysState :=
    if !s.dirExists then
      if env.mkdirRaises then Except.error ("OSError: mkdir", s)
      else Except.ok { s with dirExists := true }
    else Except.ok s
  match step1 with
  | Except.error e => Except.error e
  | Except.ok s1 =>
    -- subprocess.run(['wget', '-O', '/opt/cros-codecs/ccdec', <url>])
    -- `check` unset: a failing download does not raise; `wget -O` creates
    -- (or truncates) the output file whenever wget itself could be spawned
    if env.wgetRaises then Except.error ("OSError: wget", s1)
    else
      let s2 := { s1 with binExists := true }
      -- os.chmod("/opt/cros-codecs/ccdec", S_IRWXU|S_IRWXG|S_IRWXO) = 0o777
      if env.chmodRaises then Except.error ("OSError: chmod", s2)
      else
        let s3 := { s2 with binMode := 511 }
        -- os.environ['PATH'] = os.environ['PATH'] + ":/opt/cros-codecs"
        Except.ok { s3 with path := s3.path ++ ["/opt/cros-codecs"] }

/-- `retrieve_ccdec(build_id)`: the whole body is wrapped in
`try: ... except Exception as e: print(e)`, so every exception is caught
and swallowed and the function always returns. (`build_id` is accepted and
never used by the source.) -/
def retrieve_ccdec (env : FetchEnv) (s : SysState) : SysState :=
  match retrieve_ccdec_body env s with
  | Except.ok s' => s'
  | Except.error (_, s') => s'

/-- The script's toplevel after argument parsing: `retrieve_ccdec` first
(best effort), then the config load and matrix walk. -/
def orchestrate (env : FetchEnv) (exits : List String → Int) (single : Bool)
    (parse : Except String PyVal) (argsArch : String) (s : SysState) :
    SysState × RunOutcome :=
  let s' := retrieve_ccdec env s
  (s', mainRun exits single parse argsArch)

/-! ## Specification-side configuration model

The typed shape of a valid configuration document, taken from the spec's
data model (§3) and document shape (§6): top-level keys are architecture
identifiers; each architecture carries a `device_type` and an ordered list
of codec mappings; each codec an ordered list of test-suite mappings; each
test suite a `skip-vectors` value that is either an explicit list or YAML
null. The `…Val` functions erase this typed model to the corresponding
`PyVal` document. -/

/-- One declared test suite: its name and its `skip-vectors` value. -/
structure SuiteSpec where
  name : String
  skipVectors : Skips
  deriving DecidableEq

/-- One declared codec: its name and its `test-suites` list (a list of
suite mappings, each mapping holding one or more suites in order). -/
structure CodecSpec where
  name : String
  suites : List (List SuiteSpec)
  deriving DecidableEq

/-- One architecture entry: its `device_type` and its `codecs` list (a
list of codec mappings, each holding one or more codecs in order). -/
structure ArchSpec where
  deviceType : String
  codecs : List (List CodecSpec)
  deriving DecidableEq

/-- Erasure of a `skip-vectors` value to YAML. -/
def skipsVal : Skips → PyVal
  | Option.none => PyVal.pynull
  | some l => PyVal.pylist (l.map PyVal.pystr)

/-- Erasure of one test-suite declaration to its mapping entry. -/
def suiteVal (s : SuiteSpec) : String × PyVal :=
  (s.name, PyVal.pydict [("skip-vectors", skipsVal s.skipVectors)])

/-- Erasure of one codec declaration to its mapping entry. -/
def codecVal (c : CodecSpec) : String × PyVal :=
  (c.name, PyVal.pydict [("test-suites",
    PyVal.pylist (c.suites.map (fun grp => PyVal.pydict (grp.map suiteVal))))])

/-- Erasure of one architecture entry value to YAML. -/
def archVal (a : ArchSpec) : PyVal :=
  PyVal.pydict [("device_type", PyVal.pystr a.deviceType),
    ("codecs", PyVal.pylist (a.codecs.map (fun grp => PyVal.pydict (grp.map codecVal))))]

/-- Modelled from the spec (§4.3): the ExecutionUnit of one declared test
suite of one codec. -/
def specSuiteUnit (codec : String) (s : SuiteSpec) : ExecUnit :=
  ⟨codec, s.name, s.skipVectors⟩

/-- Modelled from the spec (§4.3): one ExecutionUnit per test suite of a
codec, in declaration order. -/
def specCodecUnits (c : CodecSpec) : List ExecUnit :=
  (c.suites.map (fun grp => grp.map (specSuiteUnit c.name))).flatten

/-- Modelled from the spec (§4.3, §8): exactly one ExecutionUnit per test
suite declared under an architecture entry, codecs in declaration order and
test suites in declaration order within each codec. -/
def specArchUnits (a : ArchSpec) : List ExecUnit :=
  (a.codecs.map (fun grp => (grp.map specCodecUnits).flatten)).flatten

/-- The argv vector the Runner builds for a unit. -/
def unitCmd (u : ExecUnit) (single : Bool) : List String :=
  run_fluster_cmd u.codec u.suite u.skips single

/-- A performed invocation: the unit paired with the exit status the
external tool returned for its argv vector. -/
def attemptOf (exits : List String → Int) (single : Bool) (u : ExecUnit) :
    ExecUnit × Int :=
  (u, exits (unitCmd u single))

/-! ## Refinement lemmas: the walk on an erased document -/

lemma wseq_ok (us : List (ExecUnit × Int)) (r : WalkRes) :
    wseq (us, Option.none) r = (us ++ r.1, r.2) := rfl

lemma readSkipList_map (l : List String) :
    readSkipList (l.map PyVal.pystr) = Except.ok l := by
  induction l with
  | nil => rfl
  | cons x xs ih => simp [readSkipList, ih]

lemma readSkips_skipsVal (o : Skips) : readSkips (skipsVal o) = Except.ok o := by
  cases o with
  | none => rfl
  | some l => simp [skipsVal, readSkips, readSkipList_map]

lemma suiteSkips_suiteVal (s : SuiteSpec) :
    suiteSkips (suiteVal s).2 = Except.ok s.skipVectors := by
  simp [suiteVal, suiteSkips, dictFind, readSkips_skipsVal]

lemma run_fluster_ok (exits : List String → Int) (codec suite : String)
    (sk : Skips) (single : Bool) :
    run_fluster exits codec suite sk single
      = Except.ok (exits (run_fluster_cmd codec suite sk single)) := by
  simp [run_fluster, subprocessRun]

lemma walkSuites_spec (exits : List String → Int) (single : Bool)
    (codec : String) (grp : List SuiteSpec) :
    walkSuites exits single codec (grp.map suiteVal)
      = ((grp.map (specSuiteUnit codec)).map (attemptOf exits single),
         Option.none) := by
  induction grp with
  | nil => rfl
  | cons s rest ih =>
    have hs := suiteSkips_suiteVal s
    simp only [suiteVal] at hs
    simp [walkSuites, suiteVal, hs, run_fluster_ok, ih, specSuiteUnit,
      attemptOf, unitCmd]

lemma walkTsList_spec (exits : List String → Int) (single : Bool)
    (codec : String) (tss : List (List SuiteSpec)) :
    walkTsList exits single codec
        (tss.map (fun grp => PyVal.pydict (grp.map suiteVal)))
      = (((tss.map (fun grp => grp.map (specSuiteUnit codec))).flatten).map
          (attemptOf exits single), Option.none) := by
  induction tss with
  | nil => rfl
  | cons grp rest ih =>
    simp [walkTsList, walkSuites_spec, ih, wseq_ok]

lemma codecSuites_codecVal (c : CodecSpec) :
    codecSuites (codecVal c).2
      = Except.ok (c.suites.map (fun grp => PyVal.pydict (grp.map suiteVal))) := by
  simp [codecVal, codecSuites, dictFind]

lemma walkCodecItems_spec (exits : List String → Int) (single : Bool)
    (grp : List CodecSpec) :
    walkCodecItems exits single (grp.map codecVal)
      = (((grp.map specCodecUnits).flatten).map (attemptOf exits single),
         Option.none) := by
  induction grp with
  | nil => rfl
  | cons c rest ih =>
    have hc := codecSuites_codecVal c
    simp only [codecVal] at hc
    simp [walkCodecItems, codecVal, hc, walkTsList_spec, ih, wseq_ok,
      specCodecUnits]

lemma walkCodecs_spec (exits : List String → Int) (single : Bool)
    (groups : List (List CodecSpec)) :
    walkCodecs exits single
        (groups.map (fun grp => PyVal.pydict (grp.map codecVal)))
      = (((groups.map (fun grp => (grp.map specCodecUnits).flatten)).flatten).map
          (attemptOf exits single), Option.none) := by
  induction groups with
  | nil => rfl
  | cons grp rest ih =>
    simp [walkCodecs, walkCodecItems_spec, ih, wseq_ok]

lemma walkArchInfo_spec (exits : List String → Int) (single : Bool)
    (a : ArchSpec) :
    walkArchInfo exits single (archVal a)
      = ((specArchUnits a).map (attemptOf exits single), Option.none) := by
  simp [walkArchInfo, archVal, dictFind, walkCodecs_spec, specArchUnits]

lemma walkLoop_skip (exits : List String → Int) (single : Bool)
    (argsArch : String) (pre rest : List (String × PyVal))
    (hpre : ∀ p ∈ pre, p.1 ≠ argsArch) :
    walkLoop exits single argsArch (pre ++ rest)
      = walkLoop exits single argsArch rest := by
  induction pre with
  | nil => rfl
  | cons p t ih =>
    obtain ⟨a, i⟩ := p
    have h1 : a ≠ argsArch := hpre (a, i) (by simp)
    have h2 : ∀ q ∈ t, q.1 ≠ argsArch := fun q hq => hpre q (by simp [hq])
    simp [walkLoop, h1, ih h2]

lemma walkLoop_match (exits : List String → Int) (single : Bool)
    (argsArch : String) (info : PyVal) (post : List (String × PyVal)) :
    walkLoop exits single argsArch ((argsArch, info) :: post)
      = walkArchInfo exits single info := by
  simp [walkLoop]

lemma walkLoop_absent (exits : List String → Int) (single : Bool)
    (argsArch : String) (entries : List (String × PyVal))
    (h : ∀ p ∈ entries, p.1 ≠ argsArch) :
    walkLoop exits single argsArch entries = ([], Option.none) := by
  have := walkLoop_skip exits single argsArch entries [] h
  simpa [walkLoop] using this

/-! ## Concrete data used by witnesses -/

/-- Exit-status oracle: every invocation succeeds. -/
def exits0 : List String → Int := fun _ => 0

/-- Exit-status oracle: every invocation fails with status 1. -/
def exits1 : List String → Int := fun _ => 1

/-- The spec's §8 example: `intel` declares codec `vp9` with suites `A`
(no skips) and `B` (skips `v1`, `v2`). -/
def intelArch : ArchSpec := ⟨"volteer", [[⟨"vp9", [[⟨"A", some []⟩], [⟨"B", some ["v1", "v2"]⟩]]⟩]]⟩

/-- The spec's §8 example: `amd` declares codec `av1` with suite `C`. -/
def amdArch : ArchSpec := ⟨"grunt", [[⟨"av1", [[⟨"C", some []⟩]]⟩]]⟩

/-! ## Claims about the matrix walk -/

/-- C3: for every valid configuration and requested architecture, the walk
performs exactly one invocation per test suite declared under the first
architecture entry whose key equals the requested identifier, in document
declaration order (codec order, then test-suite order); the entries after
the first match do not influence the result (`post` is arbitrary), and a
document with no entry for the requested architecture yields zero units. -/
theorem walk_first_match (exits : List String → Int) (single : Bool)
    (argsArch : String) (pre : List (String × PyVal)) (a : ArchSpec)
    (post : List (String × PyVal)) (hpre : ∀ p ∈ pre, p.1 ≠ argsArch) :
    walkLoop exits single argsArch (pre ++ (argsArch, archVal a) :: post)
      = ((specArchUnits a).map (attemptOf exits single), Option.none)
    ∧ ∀ entries : List (String × PyVal), (∀ p ∈ entries, p.1 ≠ argsArch) →
        walkLoop exits single argsArch entries = ([], Option.none) := by
  constructor
  · rw [walkLoop_skip exits single argsArch pre _ hpre, walkLoop_match,
      walkArchInfo_spec]
  · exact fun entries h => walkLoop_absent exits single argsArch entries h

/-- C3 witness: the §8 example document with the `intel` entry first and
the `amd` entry after it, requested architecture `intel`. -/
theorem walk_first_match_witness :
    (∀ p ∈ ([] : List (String × PyVal)), p.1 ≠ "intel")
    ∧ walkLoop exits0 false "intel"
        ([] ++ ("intel", archVal intelArch) :: [("amd", archVal amdArch)])
      = ((specArchUnits intelArch).map (attemptOf exits0 false), Option.none) :=
  ⟨by simp, (walk_first_match exits0 false "intel" [] intelArch
      [("amd", archVal amdArch)] (by simp)).1⟩

/-- C7: under an arbitrary exit-status oracle — in particular one where
invocations return non-zero statuses — no invocation raises (`check` is
unset), the walk finishes with no exception, and every test suite declared
under the matched architecture entry is attempted exactly once, in order. -/
theorem nonzero_exit_no_stop (exits : List String → Int) (single : Bool)
    (argsArch : String) (pre : List (String × PyVal)) (a : ArchSpec)
    (post : List (String × PyVal)) (hpre : ∀ p ∈ pre, p.1 ≠ argsArch) :
    ((walkLoop exits single argsArch
        (pre ++ (argsArch, archVal a) :: post)).1.map Prod.fst
      = specArchUnits a)
    ∧ (walkLoop exits single argsArch
        (pre ++ (argsArch, archVal a) :: post)).2 = Option.none := by
  rw [walkLoop_skip exits single argsArch pre _ hpre, walkLoop_match,
    walkArchInfo_spec]
  constructor
  · rw [List.map_map, show Prod.fst ∘ attemptOf exits single = id from rfl,
      List.map_id]
  · rfl

/-- C7 witness: every invocation of the §8 example run exits with status 1,
yet all declared suites are attempted exactly once and nothing raises. -/
theorem nonzero_exit_no_stop_witness :
    (∀ p ∈ ([] : List (String × PyVal)), p.1 ≠ "intel")
    ∧ ((walkLoop exits1 false "intel"
          ([] ++ ("intel", archVal intelArch) :: [("amd", archVal amdArch)])).1.map
        Prod.fst = specArchUnits intelArch)
    ∧ (walkLoop exits1 false "intel"
          ([] ++ ("intel", archVal intelArch) :: [("amd", archVal amdArch)])).2
        = Option.none :=
  ⟨by simp,
   (nonzero_exit_no_stop exits1 false "intel" [] intelArch
      [("amd", archVal amdArch)] (by simp)).1,
   (nonzero_exit_no_stop exits1 false "intel" [] intelArch
      [("amd", archVal amdArch)] (by simp)).2⟩

/-! ## Claims about the built invocation -/

/-- C4 (code bug, evaluated): the builder does not pass the timeout as the
flag/value pair `-t`, `300`. The source's adjacent string literals
`'-t' '300'` concatenate into the single fused argv token `-t300`: on a
concrete unit the fused token is an element of the invocation while
neither `-t` nor `300` is. -/
theorem timeout_token_fused :
    run_fluster_cmd "vp9" "A" (some []) false
      = ["python3", "/usr/bin/fluster_parser.py", "-ts", "A", "-d",
         "ccdec-vp9", "-t300"]
    ∧ "-t300" ∈ run_fluster_cmd "vp9" "A" (some []) false
    ∧ "-t" ∉ run_fluster_cmd "vp9" "A" (some []) false
    ∧ "300" ∉ run_fluster_cmd "vp9" "A" (some []) false := by
  refine ⟨rfl, ?_, ?_, ?_⟩ <;> decide

/-- C6: in every built invocation, the decoder identifier — the argv
element at position 5, directly following the `-d` flag at position 4 —
equals the string concatenation `"ccdec-" ++ codec` exactly. -/
theorem decoder_id_exact (codec test_suite : String) (skips : Skips)
    (single : Bool) :
    (run_fluster_cmd codec test_suite skips single)[4]? = some "-d"
    ∧ (run_fluster_cmd codec test_suite skips single)[5]?
        = some ("ccdec-" ++ codec) := by
  cases single <;> cases h : skipsTruthy skips <;>
    simp [run_fluster_cmd, baseCmd, h]

/-- C5: for a non-empty skip-vector list, the built invocation is exactly
the base arguments, then `-j 1` if single-thread, then the `-sv` flag
followed by precisely the vectors of the set — so every vector of the set
appears in the invocation, and the values threaded after `-sv` are exactly
the set's elements, nothing else. -/
theorem skip_set_exact (codec test_suite : String) (single : Bool)
    (skips : List String) (h : skips ≠ []) :
    run_fluster_cmd codec test_suite (some skips) single
      = (baseCmd codec test_suite ++ (if single then ["-j", "1"] else []))
        ++ ("-sv" :: skips)
    ∧ ∀ v ∈ skips, v ∈ run_fluster_cmd codec test_suite (some skips) single := by
  obtain ⟨s, rest, rfl⟩ := List.exists_cons_of_ne_nil h
  have heq : run_fluster_cmd codec test_suite (some (s :: rest)) single
      = (baseCmd codec test_suite ++ (if single then ["-j", "1"] else []))
        ++ ("-sv" :: s :: rest) := by
    cases single <;>
      simp [run_fluster_cmd, skipsTruthy, skipExtend_cons]
  refine ⟨heq, fun v hv => ?_⟩
  rw [heq]
  simp [hv]

/-- C5 witness: suite `B` of codec `vp9` with skip vectors `v1` and `v2`. -/
theorem skip_set_exact_witness :
    (["v1", "v2"] ≠ ([] : List String))
    ∧ run_fluster_cmd "vp9" "B" (some ["v1", "v2"]) false
      = (baseCmd "vp9" "B" ++ (if false then ["-j", "1"] else []))
        ++ ("-sv" :: ["v1", "v2"])
    ∧ "v1" ∈ run_fluster_cmd "vp9" "B" (some ["v1", "v2"]) false
    ∧ "v2" ∈ run_fluster_cmd "vp9" "B" (some ["v1", "v2"]) false :=
  ⟨by decide,
   (skip_set_exact "vp9" "B" false ["v1", "v2"] (by decide)).1,
   (skip_set_exact "vp9" "B" false ["v1", "v2"] (by decide)).2 "v1" (by decide),
   (skip_set_exact "vp9" "B" false ["v1", "v2"] (by decide)).2 "v2" (by decide)⟩

/-- C10: when the skip set is falsy — the empty list or a YAML-null
`skip-vectors:` value (Python `None`) — the invocation is exactly the base
arguments plus `-j 1` when and only when single-thread mode is set: no
`-sv` flag and no skip values are appended. -/
theorem falsy_skips_base_only (codec test_suite : String) (single : Bool)
    (skips : Skips) (h : skipsTruthy skips = false) :
    run_fluster_cmd codec test_suite skips single
      = baseCmd codec test_suite ++ (if single then ["-j", "1"] else []) := by
  cases single <;> simp [run_fluster_cmd, h]

/-- C10 witness: a YAML-null skip set with single-thread mode on. -/
theorem falsy_skips_base_only_witness :
    skipsTruthy Option.none = false
    ∧ run_fluster_cmd "av1" "AV1-TEST-VECTORS" Option.none true
      = baseCmd "av1" "AV1-TEST-VECTORS" ++ (if true then ["-j", "1"] else []) :=
  ⟨by decide,
   falsy_skips_base_only "av1" "AV1-TEST-VECTORS" true Option.none (by decide)⟩

/-! ## Claims about configuration errors -/

/-- A sample diagnostic carried by a `yaml.YAMLError`. -/
def yamlDiag : String := "yaml: parse diagnostic"

/-- C1 counterexample: on a malformed document (`yaml.safe_load` raises
`yaml.YAMLError`) the script performs no conformance-tool invocation and
prints the parser's diagnostic, but the `except` clause only prints, so
control falls off the end of the script and the process exit status is 0 —
not non-zero as the claim states. -/
theorem parse_error_exit_is_zero :
    (mainRun exits0 false (Except.error yamlDiag) "intel").units = []
    ∧ (mainRun exits0 false (Except.error yamlDiag) "intel").printedError
        = some yamlDiag
    ∧ exitCode (mainRun exits0 false (Except.error yamlDiag) "intel") = 0 :=
  ⟨rfl, rfl, rfl⟩

/-- C1 (amended): for every configuration document that is not well-formed
structured text, the run performs no conformance-tool invocation and
surfaces the parser's diagnostic, but the process terminates with exit
status 0 (nothing sets a non-zero exit; the preceding artifact-fetch
invocation has already happened before config loading). -/
theorem parse_error_reported_exit_zero (exits : List String → Int)
    (single : Bool) (diag argsArch : String) :
    mainRun exits single (Except.error diag) argsArch
      = ⟨[], some diag, Option.none⟩
    ∧ exitCode (mainRun exits single (Except.error diag) argsArch) = 0 :=
  ⟨rfl, rfl⟩

/-- A document whose only declared suite lacks the `skip-vectors` key. -/
def missingSkipEntries : List (String × PyVal) :=
  [("intel", PyVal.pydict
    [("device_type", PyVal.pystr "volteer"),
     ("codecs", PyVal.pylist [PyVal.pydict [("vp9", PyVal.pydict
       [("test-suites", PyVal.pylist
         [PyVal.pydict [("VP9-AC", PyVal.pydict [])]])])]])])]

/-- C2 counterexample: with the `skip-vectors` key absent for a suite of
the processed architecture entry, the run ends in an uncaught `KeyError`
(only `yaml.YAMLError` is caught): an unhandled fault with a traceback and
non-zero exit, with no schema error reported — contrary to the claim that
the process does not crash with an unhandled fault. -/
theorem missing_skip_key_is_unhandled_fault :
    (mainRun exits0 false (Except.ok (PyVal.pydict missingSkipEntries))
        "intel").fault = some "KeyError: skip-vectors"
    ∧ (mainRun exits0 false (Except.ok (PyVal.pydict missingSkipEntries))
        "intel").printedError = Option.none
    ∧ exitCode (mainRun exits0 false (Except.ok (PyVal.pydict missingSkipEntries))
        "intel") = 1 :=
  ⟨rfl, rfl, rfl⟩

/-- C2 (amended): whenever the walk of the processed architecture entry
raises (a required field such as `device_type`, `codecs`, `test-suites` or
`skip-vectors` is absent), the run aborts as an unhandled fault — the
exception escapes the `except yaml.YAMLError` clause and the process exits
non-zero with a traceback — rather than with a reported schema error; the
units produced before the fault have already been invoked. -/
theorem missing_field_aborts_as_fault (exits : List String → Int)
    (single : Bool) (entries : List (String × PyVal)) (argsArch : String)
    (us : List (ExecUnit × Int)) (e : String)
    (h : walkLoop exits single argsArch entries = (us, some e)) :
    mainRun exits single (Except.ok (PyVal.pydict entries)) argsArch
      = ⟨us, Option.none, some e⟩
    ∧ exitCode (mainRun exits single (Except.ok (PyVal.pydict entries))
        argsArch) = 1 := by
  constructor
  · simp [mainRun, h]
  · simp [mainRun, exitCode, h]

/-- C2 amended-claim witness: the concrete missing-`skip-vectors` document. -/
theorem missing_field_aborts_as_fault_witness :
    walkLoop exits0 false "intel" missingSkipEntries
      = ([], some "KeyError: skip-vectors")
    ∧ mainRun exits0 false (Except.ok (PyVal.pydict missingSkipEntries)) "intel"
      = ⟨[], Option.none, some "KeyError: skip-vectors"⟩ :=
  ⟨rfl, (missing_field_aborts_as_fault exits0 false missingSkipEntries "intel"
      [] "KeyError: skip-vectors" rfl).1⟩

/-! ## Claims about the artifact fetcher -/

/-- C8: every exception raised inside `retrieve_ccdec`'s body is caught by
its `except Exception` clause and swallowed — when the body raises, the
call still returns normally (with the state as of the raise), and the
config load and matrix walk of the orchestration proceed identically for
every fetch environment. -/
theorem fetch_error_swallowed (env : FetchEnv) (s : SysState)
    (exits : List String → Int) (single : Bool) (parse : Except String PyVal)
    (argsArch : String) :
    (∀ e sp, retrieve_ccdec_body env s = Except.error (e, sp) →
        retrieve_ccdec env s = sp)
    ∧ (orchestrate env exits single parse argsArch s).2
        = mainRun exits single parse argsArch := by
  refine ⟨fun e sp h => ?_, rfl⟩
  simp [retrieve_ccdec, h]

/-- A fetch environment whose `wget` spawn raises. -/
def wgetFailEnv : FetchEnv := ⟨false, true, false, false⟩

/-- A state with the binary already installed and executable. -/
def installedState : SysState := ⟨true, true, 511, ["/usr/bin"]⟩

/-- C8 witness: a run whose `wget` call raises; the exception is swallowed
(the call returns the state at the raise) and the walk still happens. -/
theorem fetch_error_swallowed_witness :
    retrieve_ccdec_body wgetFailEnv installedState
      = Except.error ("OSError: wget", installedState)
    ∧ retrieve_ccdec wgetFailEnv installedState = installedState
    ∧ (orchestrate wgetFailEnv exits0 false (Except.error yamlDiag) "intel"
        installedState).2 = mainRun exits0 false (Except.error yamlDiag) "intel" :=
  ⟨rfl,
   (fetch_error_swallowed wgetFailEnv installedState exits0 false
      (Except.error yamlDiag) "intel").1 "OSError: wget" installedState rfl,
   (fetch_error_swallowed wgetFailEnv installedState exits0 false
      (Except.error yamlDiag) "intel").2⟩

/-- A fetch environment in which every system call succeeds. -/
def goodFetchEnv : FetchEnv := ⟨false, false, true, false⟩

/-- C9: starting from any state, a successful `retrieve_ccdec` call
followed by a second call under an arbitrary failure environment — in
particular one whose fetch fails — leaves the binary present with full
permissions (0o777 = 511) and the install directory `/opt/cros-codecs`
on the executable search path: a failed second fetch never regresses a
prior successful install. -/
theorem ensure_twice_no_regress (env2 : FetchEnv) (s0 : SysState) :
    (retrieve_ccdec env2 (retrieve_ccdec goodFetchEnv s0)).binExists = true
    ∧ (retrieve_ccdec env2 (retrieve_ccdec goodFetchEnv s0)).binMode = 511
    ∧ "/opt/cros-codecs" ∈ (retrieve_ccdec env2 (retrieve_ccdec goodFetchEnv s0)).path := by
  obtain ⟨m2, w2, d2, c2⟩ := env2
  obtain ⟨de, be, bm, p⟩ := s0
  cases de <;> cases w2 <;> cases c2 <;>
    simp [retrieve_ccdec, retrieve_ccdec_body, goodFetchEnv]
